import Mathlib

/-!
# Verification of the Odoo worksheet-template synchronizer

Shallow embedding of the `WorksheetTemplateDesigner` scripts of this
repository (src/odd_temp_veb.py, src/odoo_template_temp.py,
src/odoolong1.py).  The remote ERP system is modelled as an explicit
`RemoteState`: association lists stand for the remote collections that
the scripts query over XML-RPC (`worksheet.template`, `ir.model`,
`ir.model.fields`, `ir.ui.view`), and fault-injection components model
remote calls that raise.  Every embedded operation returns its result,
the updated remote state, and the trace of remote calls it issued, so
that properties such as "no creation call is issued" are statable.
-/

/-- A declarative field specification, one entry of the `fields` list of
the template JSON document.  Mirrors the keys read by the scripts:
`name`, `label`, `field_type`, and the optional `required`, `readonly`,
`default_value`, `selection` keys (`dict.get` defaults are the Lean
default values; an optional key is an `Option`). -/
structure FieldConfig where
  name : String
  label : String := ""
  field_type : String := "char"
  required : Bool := false
  readonly : Bool := false
  default_value : Option String := none
  selection : Option String := none
deriving Repr, DecidableEq

/-- The template JSON document: `template_name`, the optional
`template_code` (read with `.get('template_code', '')` by the dispatch
in src/odoo_template_temp.py), and the `fields` list. -/
structure TemplateConfig where
  template_name : String
  template_code : Option String := none
  fields : List FieldConfig := []
deriving Repr, DecidableEq

/-- One remote XML-RPC call issued by the scripts, as recorded in the
call trace of the embedded operations. -/
inductive RCall where
  /-- `worksheet.template search [[name, =, n]]` -/
  | searchTemplate (name : String)
  /-- `worksheet.template read [id] [name, model_id]` -/
  | readTemplate (id : Nat)
  /-- `ir.model read [id] [model, name]` -/
  | readModel (id : Nat)
  /-- `ir.model.fields search [[model, =, m], [name, =, n]]` -/
  | searchField (model name : String)
  /-- `ir.model search [[model, =, m]]` -/
  | searchModel (model : String)
  /-- `ir.model.fields create {...}` with the mapped `ttype` -/
  | createField (model name ttype : String)
  /-- `ir.default set model name value` -/
  | setDefault (model name value : String)
  /-- `ir.ui.view search [[name, =, v], [model, =, m]]` -/
  | searchView (name model : String)
  /-- `ir.ui.view write [id] {arch}` -/
  | writeView (id : Nat)
  /-- `ir.ui.view create {...}` -/
  | createView (name model : String)
deriving Repr, DecidableEq

/-- A stored `ir.ui.view` record: view name, target model, id, arch. -/
structure ViewRec where
  name : String
  model : String
  id : Nat
  arch : String
deriving Repr, DecidableEq

/-- The modelled remote ERP state.  The first components are the remote
collections the scripts touch; the `fail*` components inject faults: a
remote call listed there raises, which the scripts catch (`try/except`).
-/
structure RemoteState where
  /-- `worksheet.template` records: (name, id), search order. -/
  templates : List (String × Nat) := []
  /-- `model_id` link of a template record (absent link = falsy read). -/
  templateModel : List (Nat × Nat) := []
  /-- `ir.model` records by id: technical model name. -/
  modelNames : List (Nat × String) := []
  /-- `ir.model` search results: (technical name, id), search order. -/
  models : List (String × Nat) := []
  /-- Existing `ir.model.fields` records: (model, field name). -/
  fields : List (String × String) := []
  /-- Existing `ir.ui.view` records. -/
  views : List ViewRec := []
  /-- Fresh id counter for created records. -/
  nextId : Nat := 1000
  /-- (model, field name) pairs whose existence query raises. -/
  failFieldSearch : List (String × String) := []
  /-- Model names whose `ir.model` search raises. -/
  failModelSearch : List String := []
  /-- (model, field name) pairs whose creation call raises. -/
  failFieldCreate : List (String × String) := []
  /-- The view-step remote calls raise. -/
  failViewOp : Bool := false
deriving Repr, DecidableEq

/-- The `results` dict built by `design_template` once template
resolution has succeeded. -/
structure SyncReport where
  template_name : String
  template_id : Nat
  worksheet_model : String
  total_fields : Nat
  created : Nat
  failed : Nat
  failed_fields : List String
  view_id : Option Nat := none
  success : Bool := false
deriving Repr, DecidableEq

/-- The possible shapes of the dict returned by `design_template`:
`{'success': False, 'error': str(e)}` on a JSON load error,
`{'success': False}` when template resolution fails, and the full
`results` dict otherwise. -/
inductive DesignResult where
  | loadError (err : String)
  | notFound
  | report (r : SyncReport)
deriving Repr, DecidableEq

/-- The `success` key of the returned dict. -/
def DesignResult.success : DesignResult → Bool
  | .loadError _ => false
  | .notFound => false
  | .report r => r.success

/-- Ids returned by `worksheet.template search [[name, =, n]]`. -/
def templateIds (s : RemoteState) (name : String) : List Nat :=
  (s.templates.filter (fun p => p.1 == name)).map (fun p => p.2)

/-- Ids returned by `ir.model search [[model, =, m]]`. -/
def modelIds (s : RemoteState) (model : String) : List Nat :=
  (s.models.filter (fun p => p.1 == model)).map (fun p => p.2)

/-- Ids returned by `ir.model.fields search [[model, =, m], [name, =, n]]`. -/
def fieldIds (s : RemoteState) (model fname : String) : List (String × String) :=
  s.fields.filter (fun p => p.1 == model && p.2 == fname)

/-- Records returned by `ir.ui.view search [[name, =, v], [model, =, m]]`. -/
def viewRecs (s : RemoteState) (vname model : String) : List ViewRec :=
  s.views.filter (fun v => v.name == vname && v.model == model)

namespace OddTempVeb

/-!
Embedding of `WorksheetTemplateDesigner` from src/odd_temp_veb.py.
(The field-creation and orchestration logic of the other two designer
scripts is line-for-line identical except where noted.)
-/

/-- `check_field_exists` (src/odd_temp_veb.py lines 98-107): search
`ir.model.fields` by (model, name); `len(field_ids) > 0`; any query
fault is caught and yields `False`.  Returns the result and the call
trace (the state is not modified). -/
def check_field_exists (s : RemoteState) (model fname : String) :
    Bool × List RCall :=
  if (model, fname) ∈ s.failFieldSearch then
    (false, [.searchField model fname])
  else
    (decide (0 < (fieldIds s model fname).length), [.searchField model fname])

/-- The `field_type_map` dict (src/odd_temp_veb.py lines 125-134). -/
def field_type_map : List (String × String) :=
  [("char", "char"), ("text", "text"), ("integer", "integer"),
   ("float", "float"), ("date", "date"), ("datetime", "datetime"),
   ("boolean", "boolean"), ("selection", "selection")]

/-- `field_type_map.get(field_config['field_type'], 'char')`
(src/odd_temp_veb.py line 136). -/
def fieldTypeMapGet (t : String) : String :=
  (field_type_map.lookup t).getD "char"

/-- `create_field` (src/odd_temp_veb.py lines 109-166): skip (returning
`True`) when the existence check reports the field present; otherwise
search `ir.model` (empty result or fault gives `False`), map the type
tag, issue the creation call (fault gives `False`), and on success
best-effort register a truthy `default_value` via `ir.default set`
(`set_field_default` catches its own faults, so it never changes the
result; it is modelled by its trace entry).  Returns (result, updated
state, call trace). -/
def create_field (s : RemoteState) (model : String) (fc : FieldConfig) :
    Bool × RemoteState × List RCall :=
  let fname := fc.name
  let chk := check_field_exists s model fname
  if chk.1 then
    (true, s, chk.2)
  else if model ∈ s.failModelSearch then
    (false, s, chk.2 ++ [.searchModel model])
  else
    match modelIds s model with
    | [] => (false, s, chk.2 ++ [.searchModel model])
    | _model_id :: _ =>
      let ttype := fieldTypeMapGet fc.field_type
      if (model, fname) ∈ s.failFieldCreate then
        (false, s, chk.2 ++ [.searchModel model, .createField model fname ttype])
      else
        let s1 := { s with fields := s.fields ++ [(model, fname)],
                           nextId := s.nextId + 1 }
        let defaultTrace :=
          match fc.default_value with
          | some v => if v == "" then [] else [RCall.setDefault model fname v]
          | none => []
        (true, s1, chk.2 ++ [.searchModel model, .createField model fname ttype]
                    ++ defaultTrace)

/-- The default-value extraction loop of `generate_worksheet_xml_vibracion`
(src/odd_temp_veb.py lines 184-198): scans the fields list for the four
known names and keeps the last `default_value` seen for each.  (The
Python function computes these but never splices them into the XML.) -/
def vibracionDefaults (fields : List FieldConfig) :
    String × String × String × String :=
  fields.foldl
    (fun acc fld =>
      if fld.name == "x_test_objective" && fld.default_value.isSome then
        (fld.default_value.getD "", acc.2.1, acc.2.2.1, acc.2.2.2)
      else if fld.name == "x_test_procedure" && fld.default_value.isSome then
        (acc.1, fld.default_value.getD "", acc.2.2.1, acc.2.2.2)
      else if fld.name == "x_test_method" && fld.default_value.isSome then
        (acc.1, acc.2.1, fld.default_value.getD "", acc.2.2.2)
      else if fld.name == "x_acceptance_criteria" && fld.default_value.isSome then
        (acc.1, acc.2.1, acc.2.2.1, fld.default_value.getD "")
      else acc)
    ("", "", "", "")
/-- Embeds the XML string built by generate_worksheet_xml_vibracion in src/odd_temp_veb.py (lines 200-312): a fixed layout with the template name spliced into the form string attribute. -/
def generate_worksheet_xml_vibracion_main (template_name : String) : String :=
  "<form string=\"" ++ template_name ++ "\">\n    <sheet>\n        <div class=\"oe_title\">\n            <h1>Test de vibración</h1>\n        </div>\n        \n        <group string=\"Información del Equipo\" col=\"2\">\n            <field name=\"x_assistance_code\"/>\n            <field name=\"x_client\"/>\n            <field name=\"x_model\"/>\n            <field name=\"x_project\"/>\n            <field name=\"x_serial_number\"/>\n        </group>\n        \n        <separator string=\"1. Test de vibración\"/>\n        \n        <group string=\"1.1. Objetivo\">\n            <field name=\"x_test_objective\" widget=\"text\" readonly=\"1\"/>\n        </group>\n        \n        <group string=\"1.2. Procedimiento\">\n            <field name=\"x_test_procedure\" widget=\"text\" readonly=\"1\"/>\n        </group>\n        \n        <group string=\"1.3. Método\">\n            <field name=\"x_test_method\" widget=\"text\" readonly=\"1\"/>\n        </group>\n        \n        <group string=\"1.4. Criterio de aceptación\">\n            <field name=\"x_acceptance_criteria\" widget=\"text\" readonly=\"1\"/>\n        </group>\n        \n        <separator string=\"1.5. Instrumento de medición\"/>\n        \n        <group col=\"4\">\n            <field name=\"x_instrument_brand_model\"/>\n            <field name=\"x_instrument_serial\"/>\n            <field name=\"x_calibration_certificate\"/>\n            <field name=\"x_calibration_date\"/>\n        </group>\n        \n        <separator string=\"1.6. Datos de la prueba - Reglajes\"/>\n        \n        <group col=\"4\">\n            <field name=\"x_limit_1\"/>\n            <field name=\"x_limit_2\"/>\n            <field name=\"x_max_speed\"/>\n            <field name=\"x_test_weights\"/>\n        </group>\n        \n        <separator string=\"Ensayo 1\"/>\n        <group col=\"4\">\n            <field name=\"x_test_1_imbalance\"/>\n            <newline/>\n            <field name=\"x_test_1_speed_50\"/>\n            <field name=\"x_test_1_vibration_50\"/>\n            <field name=\"x_test_1_speed_75\"/>\n            <field name=\"x_test_1_vibration_75\"/>\n            <field name=\"x_test_1_speed_100\"/>\n            <field name=\"x_test_1_vibration_100\"/>\n        </group>\n        <group>\n            <field name=\"x_test_1_comments\" widget=\"text\" nolabel=\"1\" placeholder=\"Comentarios Ensayo 1\"/>\n        </group>\n        \n        <separator string=\"Ensayo 2\"/>\n        <group col=\"4\">\n            <field name=\"x_test_2_imbalance\"/>\n            <newline/>\n            <field name=\"x_test_2_speed_50\"/>\n            <field name=\"x_test_2_vibration_50\"/>\n            <field name=\"x_test_2_speed_75\"/>\n            <field name=\"x_test_2_vibration_75\"/>\n            <field name=\"x_test_2_speed_100\"/>\n            <field name=\"x_test_2_vibration_100\"/>\n        </group>\n        <group>\n            <field name=\"x_test_2_comments\" widget=\"text\" nolabel=\"1\" placeholder=\"Comentarios Ensayo 2\"/>\n        </group>\n        \n        <separator string=\"Ensayo 3\"/>\n        <group col=\"4\">\n            <field name=\"x_test_3_imbalance\"/>\n            <newline/>\n            <field name=\"x_test_3_speed_50\"/>\n            <field name=\"x_test_3_vibration_50\"/>\n            <field name=\"x_test_3_speed_75\"/>\n            <field name=\"x_test_3_vibration_75\"/>\n            <field name=\"x_test_3_speed_100\"/>\n            <field name=\"x_test_3_vibration_100\"/>\n        </group>\n        <group>\n            <field name=\"x_test_3_comments\" widget=\"text\" nolabel=\"1\" placeholder=\"Comentarios Ensayo 3\"/>\n        </group>\n        \n        <separator string=\"1.7. Resultados test\"/>\n        \n        <group>\n            <field name=\"x_test_comments\" widget=\"text\" placeholder=\"Comentarios generales\"/>\n            <field name=\"x_result_status\" widget=\"radio\"/>\n        </group>\n        \n        <separator/>\n        \n        <group col=\"4\">\n            <field name=\"x_performed_by\"/>\n            <field name=\"x_department\"/>\n            <field name=\"x_test_date\"/>\n            <field name=\"x_signature\"/>\n        </group>\n        \n    </sheet>\n</form>"

/-- `generate_worksheet_xml_vibracion` (src/odd_temp_veb.py lines
180-314): extracts the (unused) defaults from the fields list and
returns the fixed vibration-test XML with the template name spliced in.
-/
def generate_worksheet_xml_vibracion (template_config : TemplateConfig) : String :=
  let template_name := template_config.template_name
  let _defaults := vibracionDefaults template_config.fields
  generate_worksheet_xml_vibracion_main template_name

/-- Python's `s.replace('.', '_')`: the pattern is a single character,
so the replacement is the character map sending `.` to `_`. -/
def dotToUnderscore (s : String) : String :=
  String.mk (s.data.map (fun c => if c == '.' then '_' else c))

/-- The view name computed by `create_worksheet_view`
(src/odd_temp_veb.py line 319):
`f"view_{worksheet_model.replace('.', '_')}_form"`. -/
def view_name_for (worksheet_model : String) : String :=
  "view_" ++ dotToUnderscore worksheet_model ++ "_form"

/-- `create_worksheet_view` (src/odd_temp_veb.py lines 316-354): compute
the view name and XML, search `ir.ui.view` by (name, model); update an
existing view's arch, else create a new view; return the view id, or
`None` when a remote call of this step raises (the `except` branch).
Returns (view id or none, updated state, call trace). -/
def create_worksheet_view (s : RemoteState) (worksheet_model : String)
    (template_config : TemplateConfig) : Option Nat × RemoteState × List RCall :=
  let view_name := view_name_for worksheet_model
  let view_xml := generate_worksheet_xml_vibracion template_config
  if s.failViewOp then
    (none, s, [.searchView view_name worksheet_model])
  else
    match viewRecs s view_name worksheet_model with
    | v :: _ =>
      let newViews :=
        s.views.map (fun w => if w.id == v.id then { w with arch := view_xml } else w)
      let s1 := { s with views := newViews }
      (some v.id, s1, [.searchView view_name worksheet_model, .writeView v.id])
    | [] =>
      let vid := s.nextId
      let s1 := { s with
        views := s.views ++ [{ name := view_name, model := worksheet_model,
                               id := vid, arch := view_xml }],
        nextId := s.nextId + 1 }
      (some vid, s1, [.searchView view_name worksheet_model,
                      .createView view_name worksheet_model])

/-- `find_worksheet_template_by_name` (src/odd_temp_veb.py lines 47-96):
search `worksheet.template` by exact name (empty result gives
(None, None)); take the first id; read its `model_id` link (a missing
link gives (None, None)); read the `ir.model` record for the technical
model name (missing gives (None, None)).  Returns ((template id, model
name), call trace); the state is not modified. -/
def find_worksheet_template_by_name (s : RemoteState) (template_name : String) :
    (Option Nat × Option String) × List RCall :=
  match templateIds s template_name with
  | [] => ((none, none), [.searchTemplate template_name])
  | template_id :: _ =>
    match s.templateModel.lookup template_id with
    | none => ((none, none), [.searchTemplate template_name, .readTemplate template_id])
    | some model_id =>
      match s.modelNames.lookup model_id with
      | none => ((none, none),
                 [.searchTemplate template_name, .readTemplate template_id,
                  .readModel model_id])
      | some worksheet_model =>
        ((some template_id, some worksheet_model),
         [.searchTemplate template_name, .readTemplate template_id,
          .readModel model_id])

/-- The STEP-2 loop of `design_template` (src/odd_temp_veb.py lines
397-407): run `create_field` over the fields list in order, counting
successes in `created` and failures in `failed` / `failed_fields`.
Returns ((created, failed, failed_fields), final state, call trace). -/
def processFields (model : String) :
    RemoteState → List FieldConfig → (Nat × Nat × List String) × RemoteState × List RCall
  | s, [] => ((0, 0, []), s, [])
  | s, fc :: rest =>
    let r := create_field s model fc
    let rec' := processFields model r.2.1 rest
    (if r.1 then (rec'.1.1 + 1, rec'.1.2.1, rec'.1.2.2)
     else (rec'.1.1, rec'.1.2.1 + 1, fc.name :: rec'.1.2.2),
     rec'.2.1, r.2.2 ++ rec'.2.2)

/-- The per-field results of the STEP-2 loop: the value `create_field`
returned for each field spec, in order, threading the remote state
exactly as the loop does. -/
def fieldOutcomes (model : String) : RemoteState → List FieldConfig → List Bool
  | _, [] => []
  | s, fc :: rest =>
    let r := create_field s model fc
    r.1 :: fieldOutcomes model r.2.1 rest

/-- `design_template` (src/odd_temp_veb.py lines 356-427).  The JSON
load is modelled by the `input` argument: `Except.error e` is a failed
`open`/`json.load` (caught, returning `{'success': False, 'error':
str(e)}` before any remote call); `Except.ok` is the parsed template.
Then: resolve the template (a falsy id or model name gives
`{'success': False}`), run the field loop, run the view step, and set
`results['success'] = view_id is not None`. -/
def design_template (s : RemoteState) (input : Except String TemplateConfig) :
    DesignResult × RemoteState × List RCall :=
  match input with
  | .error e => (.loadError e, s, [])
  | .ok template =>
    let fnd := find_worksheet_template_by_name s template.template_name
    match fnd.1 with
    | (some template_id, some worksheet_model) =>
      if template_id == 0 || worksheet_model == "" then
        (.notFound, s, fnd.2)
      else
        let step2 := processFields worksheet_model s template.fields
        let step3 := create_worksheet_view step2.2.1 worksheet_model template
        (.report {
            template_name := template.template_name,
            template_id := template_id,
            worksheet_model := worksheet_model,
            total_fields := template.fields.length,
            created := step2.1.1,
            failed := step2.1.2.1,
            failed_fields := step2.1.2.2,
            view_id := step3.1,
            success := step3.1.isSome },
         step3.2.1, fnd.2 ++ step2.2.2 ++ step3.2.2)
    | _ => (.notFound, s, fnd.2)

end OddTempVeb

/-- Python's substring test `pat in s`, on character lists: `pat` is a
prefix of `s` or occurs in its tail. -/
def charsContains (pat : List Char) : List Char → Bool
  | [] => pat.isEmpty
  | c :: rest => pat.isPrefixOf (c :: rest) || charsContains pat rest

/-- Python's substring test `pat in s` on strings. -/
def pyInStr (pat s : String) : Bool :=
  charsContains pat.toList s.toList

/-- Python's `s.lower()`: the per-character ASCII lowercase map.  (Lean's
`String.toLower` is the same character map, but its string-position
recursion does not reduce in the kernel, so the list form is used.) -/
def pyLower (s : String) : String :=
  String.mk (s.data.map Char.toLower)

namespace OdooTemplateTemp

/-!
Embedding of the layout generators and their dispatch from
src/odoo_template_temp.py (the rest of that designer matches
src/odd_temp_veb.py except for default-value handling, which no claim
touches).
-/

/-- Embeds the XML string built by generate_worksheet_xml_hermiticity in src/odoo_template_temp.py (lines 168-231): the template name is spliced into the form string attribute and the h1 title. -/
def generate_worksheet_xml_hermiticity_main (template_name : String) : String :=
  "<form string=\"" ++ template_name ++ "\">\n    <sheet>\n        <div class=\"oe_title\">\n            <h1>" ++ template_name ++ "</h1>\n        </div>\n        \n        <group string=\"Información del Equipo\" col=\"2\">\n            <field name=\"x_assistance_code\"/>\n            <field name=\"x_client\"/>\n            <field name=\"x_model\"/>\n            <field name=\"x_project_name\"/>\n            <field name=\"x_serial_number\"/>\n        </group>\n        \n        <separator string=\"1. Test de hermeticidad\"/>\n        \n        <group string=\"1.1. Objetivo\">\n            <field name=\"x_test_objective\" widget=\"text\" readonly=\"1\"/>\n        </group>\n        \n        <group string=\"1.2. Procedimiento\">\n            <field name=\"x_test_procedure\" widget=\"text\" readonly=\"1\"/>\n        </group>\n        \n        <group string=\"1.3. Método\">\n            <field name=\"x_test_method\" widget=\"text\" readonly=\"1\"/>\n        </group>\n        \n        <group string=\"1.4. Criterio de aceptación\">\n            <field name=\"x_acceptance_criteria\" widget=\"text\" readonly=\"1\"/>\n        </group>\n        \n        <separator string=\"1.5. Datos de la prueba\"/>\n        \n        <group string=\"Mediciones\" col=\"4\">\n            <field name=\"x_test_number\"/>\n            <newline/>\n            <field name=\"x_initial_time\"/>\n            <field name=\"x_initial_pressure\"/>\n            <field name=\"x_final_time\"/>\n            <field name=\"x_final_pressure\"/>\n        </group>\n        \n        <group string=\"Comentarios del ensayo\">\n            <field name=\"x_test_comments\" widget=\"text\" nolabel=\"1\"/>\n        </group>\n        \n        <separator string=\"Resultados\"/>\n        \n        <group string=\"Resultado del test\" col=\"2\">\n            <field name=\"x_result_status\" widget=\"radio\"/>\n            <field name=\"x_result_comments\" widget=\"text\"/>\n        </group>\n        \n        <separator/>\n        \n        <group string=\"Realizado por\" col=\"3\">\n            <field name=\"x_performed_by\"/>\n            <field name=\"x_department\"/>\n            <field name=\"x_test_date\"/>\n        </group>\n        \n    </sheet>\n</form>"

/-- Embeds the XML string built by generate_worksheet_xml_temperatura in src/odoo_template_temp.py (lines 239-299): the template name is spliced into the form string attribute only. -/
def generate_worksheet_xml_temperatura_main (template_name : String) : String :=
  "<form string=\"" ++ template_name ++ "\">\n    <sheet>\n        <div class=\"oe_title\">\n            <h1>Test de temperatura de rodamientos</h1>\n        </div>\n        \n        <group string=\"Información del Equipo\" col=\"2\">\n            <field name=\"x_client\"/>\n            <field name=\"x_equipment_model\"/>\n            <field name=\"x_serial_number\"/>\n            <field name=\"x_assistance_code\"/>\n        </group>\n        \n        <separator string=\"1. Test de temperatura de rodamientos\"/>\n        \n        <group string=\"1.1. Objetivo\">\n            <field name=\"x_test_objective\" widget=\"text\" readonly=\"1\"/>\n        </group>\n        \n        <group string=\"1.2. Procedimiento\">\n            <field name=\"x_test_procedure\" widget=\"text\" readonly=\"1\"/>\n        </group>\n        \n        <group string=\"1.3. Método\">\n            <field name=\"x_test_method\" widget=\"text\" readonly=\"1\"/>\n        </group>\n        \n        <group string=\"1.4. Criterio de aceptación\">\n            <field name=\"x_acceptance_criteria\" widget=\"text\" readonly=\"1\"/>\n        </group>\n        \n        <separator string=\"1.5. Datos de la prueba\"/>\n        \n        <group string=\"Mediciones\" col=\"4\">\n            <field name=\"x_measurement_time\" string=\"Hora\"/>\n            <field name=\"x_max_speed\" string=\"Velocidad MAX (rpm)\"/>\n            <newline/>\n            <field name=\"x_temp_upper_bearing\" string=\"Temperatura rodamiento superior (°C)\"/>\n            <field name=\"x_temp_lower_bearing\" string=\"Temperatura rodamiento inferior (°C)\"/>\n        </group>\n        \n        <group string=\"Comentarios\">\n            <field name=\"x_test_comments\" widget=\"text\" nolabel=\"1\"/>\n        </group>\n        \n        <separator string=\"Resultados\"/>\n        \n        <group string=\"Resultado del test\">\n            <field name=\"x_result_status\" widget=\"radio\"/>\n        </group>\n        \n        <separator/>\n        \n        <group string=\"Realizado por\" col=\"3\">\n            <field name=\"x_performed_by\"/>\n            <field name=\"x_department\"/>\n            <field name=\"x_test_date\"/>\n        </group>\n        \n    </sheet>\n</form>"

/-- `generate_worksheet_xml_hermiticity` (src/odoo_template_temp.py
lines 164-233): reads only `template_name` from the config. -/
def generate_worksheet_xml_hermiticity (template_config : TemplateConfig) : String :=
  generate_worksheet_xml_hermiticity_main template_config.template_name

/-- `generate_worksheet_xml_temperatura` (src/odoo_template_temp.py
lines 235-301): reads only `template_name` from the config. -/
def generate_worksheet_xml_temperatura (template_config : TemplateConfig) : String :=
  generate_worksheet_xml_temperatura_main template_config.template_name

/-- `generate_worksheet_xml` (src/odoo_template_temp.py lines 303-310):
`template_code = template_config.get('template_code', '')`; if
`'temperatura' in template_code.lower()` produce the temperature
layout, else the hermiticity layout. -/
def generate_worksheet_xml (template_config : TemplateConfig) : String :=
  let template_code := template_config.template_code.getD ""
  if pyInStr "temperatura" (pyLower template_code) then
    generate_worksheet_xml_temperatura template_config
  else
    generate_worksheet_xml_hermiticity template_config

end OdooTemplateTemp

namespace OdooLong1

/-!
Embedding of the centrifuge-revision layout generator from
src/odoolong1.py (again, the rest of that designer matches
src/odd_temp_veb.py up to default-value handling).
-/

/-- Embeds the XML string built by generate_worksheet_xml in src/odoolong1.py (lines 161-443): the template name is spliced into the form string attribute and the h1 title. -/
def generate_worksheet_xml_main (template_name : String) : String :=
  "<form string=\"" ++ template_name ++ "\">\n    <sheet>\n        <div class=\"oe_title\">\n            <h1>" ++ template_name ++ "</h1>\n            <h3>Electrical &amp; Mechanical Inspection</h3>\n        </div>\n        \n        <group string=\"Equipment Information\" col=\"4\">\n            <field name=\"x_assistance_code\"/>\n            <field name=\"x_customer\"/>\n            <field name=\"x_model\"/>\n            <field name=\"x_project\"/>\n            <field name=\"x_serial_number\" colspan=\"1\"/>\n        </group>\n        \n        <separator string=\"Inspection Details\"/>\n        \n        <group string=\"Performed by\" col=\"3\">\n            <field name=\"x_performed_by\"/>\n            <field name=\"x_position_dept\"/>\n            <field name=\"x_inspection_date\"/>\n        </group>\n        \n        <group string=\"Received by Customer\" col=\"3\">\n            <field name=\"x_received_by\"/>\n            <field name=\"x_received_position\"/>\n            <field name=\"x_received_date\"/>\n        </group>\n        \n        <separator string=\"1. Revision Centrifuge\"/>\n        \n        <group string=\"1.1. Objective\">\n            <field name=\"x_objective\" widget=\"text\" readonly=\"1\"/>\n        </group>\n        \n        <group string=\"1.2. Procedure\">\n            <field name=\"x_procedure\" widget=\"text\" readonly=\"1\"/>\n        </group>\n        \n        <group string=\"1.3. Standard\">\n            <field name=\"x_standard\" widget=\"text\" readonly=\"1\"/>\n        </group>\n        \n        <separator string=\"1.4. Inspection Points / Maintenance\"/>\n        \n        <group string=\"Confirmation of Previous Status with Client\" col=\"2\">\n            <field name=\"x_prev_no_defects\" widget=\"radio\"/>\n            <field name=\"x_prev_regular_use\" widget=\"radio\"/>\n            <field name=\"x_prev_minor_defects\" widget=\"radio\"/>\n            <field name=\"x_prev_customer_comments\" widget=\"text\" colspan=\"2\"/>\n        </group>\n        \n        <separator string=\"Previous Verifications\"/>\n        \n        <group string=\"Basic Checks\" col=\"2\">\n            <field name=\"x_verify_id_plate\" widget=\"radio\"/>\n            <field name=\"x_verify_emergency_stop\" widget=\"radio\"/>\n            <field name=\"x_verify_hmi\" widget=\"radio\"/>\n            <field name=\"x_verify_collector\" widget=\"radio\"/>\n            <field name=\"x_verify_rotation\" widget=\"radio\"/>\n            <field name=\"x_verify_vibration\" widget=\"radio\"/>\n            <field name=\"x_verify_comments\" widget=\"text\" colspan=\"2\"/>\n        </group>\n        \n        <separator string=\"Inertial Baseplate\"/>\n        \n        <group string=\"Baseplate Inspection\" col=\"2\">\n            <field name=\"x_baseplate_corrosion\" widget=\"radio\"/>\n            <field name=\"x_baseplate_remains\" widget=\"radio\"/>\n            <field name=\"x_support_structure\" widget=\"radio\"/>\n            <field name=\"x_motor_support\" widget=\"radio\"/>\n            <field name=\"x_connection_boxes\" widget=\"radio\"/>\n            <field name=\"x_cover_condition\" widget=\"radio\"/>\n            <field name=\"x_cable_protection\" widget=\"radio\"/>\n            <field name=\"x_vibration_sensor\" widget=\"radio\"/>\n            <field name=\"x_baseplate_comments\" widget=\"text\" colspan=\"2\"/>\n        </group>\n        \n        <separator string=\"Suspension System\"/>\n        \n        <group col=\"2\">\n            <field name=\"x_suspension_maintenance\"/>\n            <newline/>\n            <field name=\"x_dampers_condition\" widget=\"radio\"/>\n            <field name=\"x_tripendular_condition\" widget=\"radio\"/>\n            <field name=\"x_visco_dampers\" widget=\"radio\"/>\n            <field name=\"x_suspension_comments\" widget=\"text\" colspan=\"2\"/>\n        </group>\n        \n        <separator string=\"Casing\"/>\n        \n        <group col=\"2\">\n            <field name=\"x_casing_maintenance\"/>\n            <newline/>\n            <field name=\"x_temp_probe\" widget=\"radio\"/>\n            <field name=\"x_sensor_interlock\" widget=\"radio\"/>\n            <field name=\"x_pneumatic_system\" widget=\"radio\"/>\n            <field name=\"x_casing_gasket\" widget=\"radio\"/>\n            <field name=\"x_casing_closure\" widget=\"radio\"/>\n            <field name=\"x_casing_comments\" widget=\"text\" colspan=\"2\"/>\n        </group>\n        \n        <separator string=\"Lid\"/>\n        \n        <group col=\"2\">\n            <field name=\"x_lid_maintenance\"/>\n            <newline/>\n            <field name=\"x_sight_glasses\" widget=\"radio\"/>\n            <field name=\"x_hinges\" widget=\"radio\"/>\n            <field name=\"x_opening_cylinder\" widget=\"radio\"/>\n            <field name=\"x_lid_comments\" widget=\"text\" colspan=\"2\"/>\n        </group>\n        \n        <separator string=\"Feeding Detector\"/>\n        \n        <group col=\"2\">\n            <field name=\"x_feeding_detector_maintenance\"/>\n            <newline/>\n            <field name=\"x_feeding_corrosion\" widget=\"radio\"/>\n            <field name=\"x_feeding_instrumentation\" widget=\"radio\"/>\n            <field name=\"x_feeding_comments\" widget=\"text\" colspan=\"2\"/>\n        </group>\n        \n        <separator string=\"Piping and Connections\"/>\n        \n        <group col=\"2\">\n            <field name=\"x_feeding_pipe\" widget=\"radio\"/>\n            <field name=\"x_washing_pipe\" widget=\"radio\"/>\n            <field name=\"x_outlet_liquid\" widget=\"radio\"/>\n            <field name=\"x_cip_system\" widget=\"radio\"/>\n            <field name=\"x_solid_discharge_pipe\" widget=\"radio\"/>\n            <field name=\"x_piping_comments\" widget=\"text\" colspan=\"2\"/>\n        </group>\n        \n        <separator string=\"Scrapper\"/>\n        \n        <group col=\"2\">\n            <field name=\"x_scrapper_maintenance\"/>\n            <newline/>\n            <field name=\"x_scrapper_hydraulic\" widget=\"radio\"/>\n            <field name=\"x_hydraulic_circuit\" widget=\"radio\"/>\n            <field name=\"x_blade_condition\" widget=\"radio\"/>\n            <field name=\"x_blade_blowing\" widget=\"radio\"/>\n            <field name=\"x_scrapper_comments\" widget=\"text\" colspan=\"2\"/>\n        </group>\n        \n        <separator string=\"Antagonic Blowing\"/>\n        \n        <group col=\"2\">\n            <field name=\"x_antagonic_maintenance\"/>\n            <newline/>\n            <field name=\"x_antagonic_clearances\" widget=\"radio\"/>\n            <field name=\"x_antagonic_comments\" widget=\"text\" colspan=\"2\"/>\n        </group>\n        \n        <separator string=\"Drive\"/>\n        \n        <group col=\"2\">\n            <field name=\"x_drive_maintenance\"/>\n            <newline/>\n            <field name=\"x_belt_condition\" widget=\"radio\"/>\n            <field name=\"x_main_motor\" widget=\"radio\"/>\n            <field name=\"x_pulley_condition\" widget=\"radio\"/>\n            <field name=\"x_static_discharge\" widget=\"radio\"/>\n            <field name=\"x_tachometric\" widget=\"radio\"/>\n            <field name=\"x_drive_comments\" widget=\"text\" colspan=\"2\"/>\n        </group>\n        \n        <separator string=\"Basket\"/>\n        \n        <group col=\"2\">\n            <field name=\"x_basket_bottom\" widget=\"radio\"/>\n            <field name=\"x_basket_boarding\" widget=\"radio\"/>\n            <field name=\"x_basket_ferrule\" widget=\"radio\"/>\n            <field name=\"x_basket_comments\" widget=\"text\" colspan=\"2\"/>\n        </group>\n        \n        <separator string=\"Bearing Box\"/>\n        \n        <group col=\"2\">\n            <field name=\"x_bearing_maintenance\"/>\n            <newline/>\n            <field name=\"x_greasing_system\" widget=\"radio\"/>\n            <field name=\"x_oil_system\" widget=\"radio\"/>\n            <field name=\"x_bearing_temp_probe\" widget=\"radio\"/>\n            <field name=\"x_inerting\" widget=\"radio\"/>\n            <field name=\"x_bearing_comments\" widget=\"text\" colspan=\"2\"/>\n        </group>\n        \n        <separator string=\"Hoses\"/>\n        \n        <group col=\"2\">\n            <field name=\"x_hoses_maintenance\"/>\n            <newline/>\n            <field name=\"x_liquid_outlet_hose\" widget=\"radio\"/>\n            <field name=\"x_hoses_comments\" widget=\"text\" colspan=\"2\"/>\n        </group>\n        \n        <separator string=\"Filtercloth\"/>\n        \n        <group col=\"2\">\n            <field name=\"x_filtercloth_fixing_ring\" widget=\"radio\"/>\n            <field name=\"x_filtercloth_clip\" widget=\"radio\"/>\n            <field name=\"x_filtercloth_gasket\" widget=\"radio\"/>\n            <field name=\"x_filtercloth_comments\" widget=\"text\" colspan=\"2\"/>\n        </group>\n        \n        <separator string=\"Solid Discharge\"/>\n        \n        <group col=\"2\">\n            <field name=\"x_butterfly_valve\" widget=\"radio\"/>\n            <field name=\"x_screw_conveyor\" widget=\"radio\"/>\n            <field name=\"x_solid_discharge_comments\" widget=\"text\" colspan=\"2\"/>\n        </group>\n        \n        <separator string=\"Inertization\"/>\n        \n        <group col=\"2\">\n            <field name=\"x_inertization_maintenance\"/>\n            <newline/>\n            <field name=\"x_blanketing_panel\" widget=\"radio\"/>\n            <field name=\"x_oxygen_analyzer\" widget=\"radio\"/>\n            <field name=\"x_siphonic_tank\" widget=\"radio\"/>\n            <field name=\"x_inertization_comments\" widget=\"text\" colspan=\"2\"/>\n        </group>\n        \n        <separator string=\"Hydraulic Unit\"/>\n        \n        <group col=\"2\">\n            <field name=\"x_hydraulic_unit_maintenance\"/>\n            <newline/>\n            <field name=\"x_hydraulic_actuators\" widget=\"radio\"/>\n            <field name=\"x_hydraulic_comments\" widget=\"text\" colspan=\"2\"/>\n        </group>\n        \n        <separator string=\"Lubrication Unit\"/>\n        \n        <group col=\"2\">\n            <field name=\"x_lubrication_maintenance\"/>\n            <newline/>\n            <field name=\"x_lubrication_actuators\" widget=\"radio\"/>\n            <field name=\"x_lubrication_comments\" widget=\"text\" colspan=\"2\"/>\n        </group>\n        \n        <separator string=\"Electrical Cabinets\"/>\n        \n        <group col=\"2\">\n            <field name=\"x_power_cabinet\" widget=\"radio\"/>\n            <field name=\"x_control_cabinet\" widget=\"radio\"/>\n            <field name=\"x_operator_panel_cabinet\" widget=\"radio\"/>\n            <field name=\"x_brake_resistors\" widget=\"radio\"/>\n            <field name=\"x_electrical_comments\" widget=\"text\" colspan=\"2\"/>\n        </group>\n        \n        <separator string=\"Tests\"/>\n        \n        <group col=\"2\">\n            <field name=\"x_temperature_test\" widget=\"radio\"/>\n            <field name=\"x_vibrations_test\" widget=\"radio\"/>\n            <field name=\"x_leak_test\" widget=\"radio\"/>\n            <field name=\"x_tests_comments\" widget=\"text\" colspan=\"2\"/>\n        </group>\n        \n        <separator string=\"Others Before Not Mentioned\"/>\n        \n        <group>\n            <field name=\"x_others_not_mentioned\" widget=\"text\" nolabel=\"1\"/>\n        </group>\n        \n        <separator string=\"1.5. Notes, Comments and Final Conclusions\"/>\n        \n        <group>\n            <field name=\"x_final_notes\" widget=\"text\" nolabel=\"1\"/>\n        </group>\n        \n        <separator/>\n        \n        <group string=\"Overall Inspection Result\">\n            <field name=\"x_overall_result\" widget=\"radio\"/>\n        </group>\n        \n    </sheet>\n</form>"

/-- `generate_worksheet_xml` (src/odoolong1.py lines 157-445): reads
only `template_name` from the config. -/
def generate_worksheet_xml (template_config : TemplateConfig) : String :=
  generate_worksheet_xml_main template_config.template_name

end OdooLong1

/-- Recognizes the `ir.model.fields create` calls in a trace. -/
def RCall.isCreateFieldCall : RCall → Bool
  | .createField _ _ _ => true
  | _ => false

/-- Recognizes the `ir.ui.view` calls (search/write/create) in a trace. -/
def RCall.isViewCall : RCall → Bool
  | .searchView _ _ => true
  | .writeView _ => true
  | .createView _ _ => true
  | _ => false

/-- Recognizes the template-resolution calls (`worksheet.template`
search/read and the `ir.model` read) in a trace. -/
def RCall.isResolutionCall : RCall → Bool
  | .searchTemplate _ => true
  | .readTemplate _ => true
  | .readModel _ => true
  | _ => false

/-!
## Lemmas about the embedded operations
-/

namespace OddTempVeb

theorem check_field_exists_fst (s : RemoteState) (model fname : String) :
    (check_field_exists s model fname).1 =
      if (model, fname) ∈ s.failFieldSearch then false
      else decide (0 < (fieldIds s model fname).length) := by
  unfold check_field_exists
  split <;> rfl

theorem check_field_exists_snd (s : RemoteState) (model fname : String) :
    (check_field_exists s model fname).2 = [.searchField model fname] := by
  unfold check_field_exists
  split <;> rfl

theorem fieldIds_length_pos_iff (s : RemoteState) (model fname : String) :
    0 < (fieldIds s model fname).length ↔ (model, fname) ∈ s.fields := by
  rw [fieldIds, List.length_pos_iff_exists_mem]
  constructor
  · rintro ⟨⟨a, b⟩, hmem⟩
    rw [List.mem_filter] at hmem
    obtain ⟨hin, hpred⟩ := hmem
    simp only [Bool.and_eq_true, beq_iff_eq] at hpred
    obtain ⟨rfl, rfl⟩ := hpred
    exact hin
  · intro h
    exact ⟨(model, fname), List.mem_filter.mpr ⟨h, by simp⟩⟩

/-- On an existing field with a healthy existence query, `create_field`
takes the skip branch: it returns `True`, leaves the remote unchanged,
and issues only the existence query. -/
theorem create_field_skip (s : RemoteState) (model : String) (fc : FieldConfig)
    (h1 : (model, fc.name) ∉ s.failFieldSearch) (h2 : (model, fc.name) ∈ s.fields) :
    create_field s model fc = (true, s, [.searchField model fc.name]) := by
  have hchk : (check_field_exists s model fc.name).1 = true := by
    rw [check_field_exists_fst, if_neg h1]
    exact decide_eq_true ((fieldIds_length_pos_iff s model fc.name).mpr h2)
  simp [create_field, hchk, check_field_exists_snd]

/-- On an absent field with healthy queries and a resolvable model,
`create_field` creates the field: it returns `True`, appends the
(model, name) pair to the remote fields, and its trace contains the
creation call carrying the mapped type. -/
theorem create_field_creates (s : RemoteState) (model : String) (fc : FieldConfig)
    (h1 : (model, fc.name) ∉ s.failFieldSearch) (h2 : (model, fc.name) ∉ s.fields)
    (h3 : model ∉ s.failModelSearch) (h4 : modelIds s model ≠ [])
    (h5 : (model, fc.name) ∉ s.failFieldCreate) :
    (create_field s model fc).1 = true ∧
    (create_field s model fc).2.1 =
      { s with fields := s.fields ++ [(model, fc.name)], nextId := s.nextId + 1 } ∧
    RCall.createField model fc.name (fieldTypeMapGet fc.field_type) ∈
      (create_field s model fc).2.2 := by
  have hchk : (check_field_exists s model fc.name).1 = false := by
    rw [check_field_exists_fst, if_neg h1]
    simp [fieldIds_length_pos_iff, h2, Nat.le_zero]
  obtain ⟨mid, mrest, hmid⟩ : ∃ mid mrest, modelIds s model = mid :: mrest := by
    cases hm : modelIds s model with
    | nil => exact absurd hm h4
    | cons a l => exact ⟨a, l, rfl⟩
  simp [create_field, hchk, h3, hmid, h5, check_field_exists_snd]

/-- `create_field` either leaves the remote state unchanged or appends
exactly the new field record (bumping the id counter). -/
theorem create_field_state_shape (s : RemoteState) (model : String) (fc : FieldConfig) :
    (create_field s model fc).2.1 = s ∨
    (create_field s model fc).2.1 =
      { s with fields := s.fields ++ [(model, fc.name)], nextId := s.nextId + 1 } := by
  simp only [create_field]
  split
  · exact Or.inl rfl
  · split
    · exact Or.inl rfl
    · split
      · exact Or.inl rfl
      · split
        · exact Or.inl rfl
        · exact Or.inr rfl

/-- `create_field` never touches the remote collections other than the
field records, never touches the fault-injection components, and only
ever extends the field records. -/
theorem create_field_preserves (s : RemoteState) (model : String) (fc : FieldConfig) :
    (create_field s model fc).2.1.models = s.models ∧
    (create_field s model fc).2.1.failFieldSearch = s.failFieldSearch ∧
    (create_field s model fc).2.1.failModelSearch = s.failModelSearch ∧
    (create_field s model fc).2.1.failFieldCreate = s.failFieldCreate ∧
    (create_field s model fc).2.1.failViewOp = s.failViewOp ∧
    ∃ ext, (create_field s model fc).2.1.fields = s.fields ++ ext := by
  rcases create_field_state_shape s model fc with h | h <;> rw [h]
  · exact ⟨rfl, rfl, rfl, rfl, rfl, [], by simp⟩
  · exact ⟨rfl, rfl, rfl, rfl, rfl, [(model, fc.name)], rfl⟩

theorem modelIds_eq_of_models {s s' : RemoteState} (model : String)
    (h : s'.models = s.models) : modelIds s' model = modelIds s model := by
  simp [modelIds, h]

/-- The existence query for the field is always the first call
`create_field` issues. -/
theorem create_field_trace_head (s : RemoteState) (model : String) (fc : FieldConfig) :
    RCall.searchField model fc.name ∈ (create_field s model fc).2.2 := by
  simp only [create_field]
  split
  · rw [check_field_exists_snd]; exact List.mem_singleton.mpr rfl
  · split
    · rw [check_field_exists_snd]; simp
    · split
      · rw [check_field_exists_snd]; simp
      · split
        · rw [check_field_exists_snd]; simp
        · rw [check_field_exists_snd]; simp

end OddTempVeb

namespace OddTempVeb

/-- The STEP-2 loop never touches the remote collections other than the
field records, never touches the fault-injection components, and only
ever extends the field records. -/
theorem processFields_preserves (model : String) :
    ∀ (fs : List FieldConfig) (s : RemoteState),
    (processFields model s fs).2.1.models = s.models ∧
    (processFields model s fs).2.1.failFieldSearch = s.failFieldSearch ∧
    (processFields model s fs).2.1.failModelSearch = s.failModelSearch ∧
    (processFields model s fs).2.1.failFieldCreate = s.failFieldCreate ∧
    (processFields model s fs).2.1.failViewOp = s.failViewOp ∧
    ∃ ext, (processFields model s fs).2.1.fields = s.fields ++ ext := by
  intro fs
  induction fs with
  | nil =>
    intro s
    exact ⟨rfl, rfl, rfl, rfl, rfl, [], by simp [processFields]⟩
  | cons fc rest ih =>
    intro s
    obtain ⟨hm, hfs, hms, hfcr, hvo, ext1, hext1⟩ :=
      create_field_preserves s model fc
    obtain ⟨hm2, hfs2, hms2, hfcr2, hvo2, ext2, hext2⟩ :=
      ih (create_field s model fc).2.1
    refine ⟨?_, ?_, ?_, ?_, ?_, ext1 ++ ext2, ?_⟩ <;>
      simp only [processFields] <;>
      simp [hm, hfs, hms, hfcr, hvo, hm2, hfs2, hms2, hfcr2, hvo2, hext1, hext2]

/-- After one STEP-2 pass with healthy queries and a resolvable model,
every field of the list exists on the remote. -/
theorem processFields_all_present (model : String) :
    ∀ (fs : List FieldConfig) (s : RemoteState),
    model ∉ s.failModelSearch → modelIds s model ≠ [] →
    (∀ fc ∈ fs, (model, fc.name) ∉ s.failFieldSearch ∧
                (model, fc.name) ∉ s.failFieldCreate) →
    ∀ fc ∈ fs, (model, fc.name) ∈ (processFields model s fs).2.1.fields := by
  intro fs
  induction fs with
  | nil => intro s _ _ _ fc h; cases h
  | cons fc0 rest ih =>
    intro s hms hmid hclean fc hfc
    obtain ⟨hm1, hfs1, hms1, hfcr1, _, ext1, hext1⟩ :=
      create_field_preserves s model fc0
    have hmem0 : (model, fc0.name) ∈ (create_field s model fc0).2.1.fields := by
      by_cases hin : (model, fc0.name) ∈ s.fields
      · rw [hext1]; exact List.mem_append_left _ hin
      · obtain ⟨-, hstate, -⟩ :=
          create_field_creates s model fc0 (hclean fc0 (List.mem_cons_self fc0 rest)).1
            hin hms hmid (hclean fc0 (List.mem_cons_self fc0 rest)).2
        rw [hstate]
        simp
    obtain ⟨-, -, -, -, -, ext2, hext2⟩ :=
      processFields_preserves model rest (create_field s model fc0).2.1
    have hfinal : (processFields model s (fc0 :: rest)).2.1 =
        (processFields model (create_field s model fc0).2.1 rest).2.1 := by
      simp only [processFields]
    rcases List.mem_cons.mp hfc with rfl | hrest
    · rw [hfinal, hext2]
      exact List.mem_append_left _ hmem0
    · rw [hfinal]
      refine ih (create_field s model fc0).2.1 ?_ ?_ ?_ fc hrest
      · rw [hms1]; exact hms
      · rw [modelIds_eq_of_models model hm1]; exact hmid
      · intro fc' h'
        rw [hfs1, hfcr1]
        exact hclean fc' (List.mem_cons_of_mem fc0 h')

/-- A STEP-2 pass over fields that all already exist (with healthy
existence queries) changes nothing: every field is skipped, none fails,
and the trace is exactly the per-field existence queries. -/
theorem processFields_skip_all (model : String) :
    ∀ (fs : List FieldConfig) (s : RemoteState),
    (∀ fc ∈ fs, (model, fc.name) ∈ s.fields ∧
                (model, fc.name) ∉ s.failFieldSearch) →
    processFields model s fs =
      ((fs.length, 0, []), s, fs.map (fun fc => RCall.searchField model fc.name)) := by
  intro fs
  induction fs with
  | nil => intro s _; rfl
  | cons fc0 rest ih =>
    intro s h
    have hskip := create_field_skip s model fc0
      (h fc0 (List.mem_cons_self fc0 rest)).2 (h fc0 (List.mem_cons_self fc0 rest)).1
    have hrest := ih s (fun fc hf => h fc (List.mem_cons_of_mem fc0 hf))
    simp [processFields, hskip, hrest]

/-- The counters of the STEP-2 loop agree with the per-field outcomes of
`create_field`: `created` + `failed` covers every field, `failed`
counts exactly the `False` outcomes, and `failed_fields` lists exactly
the names of the fields with a `False` outcome, in input order. -/
theorem processFields_report (model : String) :
    ∀ (fs : List FieldConfig) (s : RemoteState),
    (processFields model s fs).1.1 + (processFields model s fs).1.2.1 = fs.length ∧
    (processFields model s fs).1.2.1 = (fieldOutcomes model s fs).count false ∧
    (processFields model s fs).1.2.2 =
      ((fs.zip (fieldOutcomes model s fs)).filter (fun p => !p.2)).map
        (fun p => p.1.name) := by
  intro fs
  induction fs with
  | nil => intro s; exact ⟨rfl, rfl, rfl⟩
  | cons fc rest ih =>
    intro s
    obtain ⟨ih1, ih2, ih3⟩ := ih (create_field s model fc).2.1
    simp only [processFields, fieldOutcomes]
    cases hr : (create_field s model fc).1 <;>
      refine ⟨?_, ?_, ?_⟩ <;>
      simp [hr, ih1, ih2, ih3, List.count_cons] <;> omega

/-- Every field of the input list is attempted: its existence query
appears in the loop's trace. -/
theorem processFields_trace_all (model : String) :
    ∀ (fs : List FieldConfig) (s : RemoteState),
    ∀ fc ∈ fs, RCall.searchField model fc.name ∈ (processFields model s fs).2.2 := by
  intro fs
  induction fs with
  | nil => intro s fc h; cases h
  | cons fc0 rest ih =>
    intro s fc hfc
    have htr : (processFields model s (fc0 :: rest)).2.2 =
        (create_field s model fc0).2.2 ++
        (processFields model (create_field s model fc0).2.1 rest).2.2 := by
      simp only [processFields]
    rcases List.mem_cons.mp hfc with rfl | hrest
    · rw [htr]; exact List.mem_append_left _ (create_field_trace_head s model fc)
    · rw [htr]
      exact List.mem_append_right _ (ih (create_field s model fc0).2.1 fc hrest)

/-- When the view-step remote calls raise, `create_worksheet_view`
returns `None` and leaves the remote unchanged. -/
theorem create_worksheet_view_fail (s : RemoteState) (wm : String)
    (tmpl : TemplateConfig) (h : s.failViewOp = true) :
    (create_worksheet_view s wm tmpl).1 = none ∧
    (create_worksheet_view s wm tmpl).2.1 = s := by
  rw [create_worksheet_view]
  simp [h]

/-- Reduction of `design_template` once template resolution has
produced a truthy template id and model name: the result is the full
report, whose `success` flag is the view step's `is not None`. -/
theorem design_template_report (s : RemoteState) (tmpl : TemplateConfig)
    (tid : Nat) (wm : String)
    (hfind : (find_worksheet_template_by_name s tmpl.template_name).1 = (some tid, some wm))
    (hid : tid ≠ 0) (hwm : wm ≠ "") :
    design_template s (.ok tmpl) =
      (.report {
          template_name := tmpl.template_name,
          template_id := tid,
          worksheet_model := wm,
          total_fields := tmpl.fields.length,
          created := (processFields wm s tmpl.fields).1.1,
          failed := (processFields wm s tmpl.fields).1.2.1,
          failed_fields := (processFields wm s tmpl.fields).1.2.2,
          view_id := (create_worksheet_view (processFields wm s tmpl.fields).2.1 wm tmpl).1,
          success := (create_worksheet_view (processFields wm s tmpl.fields).2.1 wm tmpl).1.isSome },
       (create_worksheet_view (processFields wm s tmpl.fields).2.1 wm tmpl).2.1,
       (find_worksheet_template_by_name s tmpl.template_name).2 ++
         ((processFields wm s tmpl.fields).2.2 ++
          (create_worksheet_view (processFields wm s tmpl.fields).2.1 wm tmpl).2.2)) := by
  have h1 : (tid == 0) = false := beq_eq_false_iff_ne.mpr hid
  have h2 : (wm == "") = false := beq_eq_false_iff_ne.mpr hwm
  simp only [design_template]
  rw [hfind]
  simp [h1, h2]

/-- Reduction of `design_template` when template resolution failed:
the `{'success': False}` dict is returned, the remote is untouched, and
the trace is the resolution trace alone. -/
theorem design_template_notFound (s : RemoteState) (tmpl : TemplateConfig)
    (hfind : (find_worksheet_template_by_name s tmpl.template_name).1 = (none, none)) :
    design_template s (.ok tmpl) =
      (.notFound, s, (find_worksheet_template_by_name s tmpl.template_name).2) := by
  simp only [design_template]
  rw [hfind]

/-- A failed resolution (no name match, a missing model link, or a
missing model record) yields (None, None), and its trace holds only
resolution calls: no field creation, no view operation, no `ir.model`
search and no default registration. -/
theorem find_not_found (s : RemoteState) (tname : String)
    (h : templateIds s tname = [] ∨
         ∃ tid rest, templateIds s tname = tid :: rest ∧
           (s.templateModel.lookup tid = none ∨
            ∃ mid, s.templateModel.lookup tid = some mid ∧
                   s.modelNames.lookup mid = none)) :
    (find_worksheet_template_by_name s tname).1 = (none, none) ∧
    ∀ c ∈ (find_worksheet_template_by_name s tname).2,
      c.isResolutionCall = true ∧ c.isCreateFieldCall = false ∧
      c.isViewCall = false := by
  rcases h with hnil | ⟨tid, rest, hcons, hlink | ⟨mid, hmid, hname⟩⟩
  · simp only [find_worksheet_template_by_name, hnil]
    refine ⟨by trivial, ?_⟩
    intro c hc
    simp only [List.mem_singleton] at hc
    subst hc
    exact ⟨rfl, rfl, rfl⟩
  · simp only [find_worksheet_template_by_name, hcons, hlink]
    refine ⟨by trivial, ?_⟩
    intro c hc
    simp only [List.mem_cons, List.not_mem_nil, or_false] at hc
    rcases hc with rfl | rfl <;> exact ⟨rfl, rfl, rfl⟩
  · simp only [find_worksheet_template_by_name, hcons, hmid, hname]
    refine ⟨by trivial, ?_⟩
    intro c hc
    simp only [List.mem_cons, List.not_mem_nil, or_false] at hc
    rcases hc with rfl | rfl | rfl <;> exact ⟨rfl, rfl, rfl⟩

end OddTempVeb

/-- `charsContains` decides the infix (contiguous-substring) relation:
Python's `pat in s`. -/
theorem charsContains_iff_substring (pat : List Char) :
    ∀ s : List Char, charsContains pat s = true ↔ pat <:+: s := by
  intro s
  induction s with
  | nil =>
    simp only [charsContains, List.isEmpty_iff, List.infix_nil]
  | cons c rest ih =>
    rw [charsContains, List.infix_cons_iff, Bool.or_eq_true,
        List.isPrefixOf_iff_prefix, ih]

/-- Splicing a string between the fixed `view_` and `_form` delimiters
is injective. -/
theorem view_wrap_inj (x y : String)
    (h : "view_" ++ x ++ "_form" = "view_" ++ y ++ "_form") : x = y := by
  have hd : ("view_" ++ x ++ "_form").data = ("view_" ++ y ++ "_form").data := by
    rw [h]
  rw [String.data_append, String.data_append, String.data_append,
      String.data_append, List.append_assoc, List.append_assoc] at hd
  have h1 := List.append_cancel_left hd
  have h2 := List.append_cancel_right h1
  cases x; cases y
  simp only at h2
  rw [h2]

/-!
## Claim theorems
-/

/-- C10: for every template-input path whose file cannot be read or
parsed as JSON, `design_template` returns a result with `success` false
carrying the error message, and issues no remote calls at all (empty
trace, remote state untouched) — in particular no template resolution,
no field creation, no view operation. -/
theorem claim_C10_load_failure_no_calls (s : RemoteState) (e : String) :
    OddTempVeb.design_template s (.error e) = (.loadError e, s, []) ∧
    (OddTempVeb.design_template s (.error e)).1.success = false :=
  ⟨rfl, rfl⟩

/-- C5 counterexample: the layout-name computation is NOT injective on
target model names: the distinct model names `x.y` and `x_y` receive
the same layout name `view_x_y_form`, refuting "two different target
model names yield distinct layout names". -/
theorem claim_C5_counterexample :
    OddTempVeb.view_name_for "x.y" = OddTempVeb.view_name_for "x_y" ∧
    "x.y" ≠ "x_y" := by
  decide

/-- C5 (amended): the layout name is a pure deterministic function of
the target model name, and two target model names yield distinct layout
names exactly when they still differ after the dot-to-underscore
normalization (so names that are equal up to `.`/`_` collide). -/
theorem claim_C5_layout_naming (m1 m2 : String) :
    OddTempVeb.view_name_for m1 = OddTempVeb.view_name_for m2 ↔
      OddTempVeb.dotToUnderscore m1 = OddTempVeb.dotToUnderscore m2 := by
  constructor
  · intro h
    rw [OddTempVeb.view_name_for, OddTempVeb.view_name_for] at h
    exact view_wrap_inj _ _ h
  · intro h
    rw [OddTempVeb.view_name_for, OddTempVeb.view_name_for, h]

/-- C6: an unrecognized type tag is mapped to the generic short-text
type `char`, and (queries being healthy, the model resolvable, the
field absent) the field's creation is still attempted — the creation
call is issued with `ttype = 'char'` and the field succeeds. -/
theorem claim_C6_fail_open_type_mapping (s : RemoteState) (model : String)
    (fc : FieldConfig)
    (hunrec : fc.field_type ∉ ["char", "text", "integer", "float", "date",
                               "datetime", "boolean", "selection"])
    (h1 : (model, fc.name) ∉ s.failFieldSearch)
    (h2 : (model, fc.name) ∉ s.fields)
    (h3 : model ∉ s.failModelSearch)
    (h4 : modelIds s model ≠ [])
    (h5 : (model, fc.name) ∉ s.failFieldCreate) :
    OddTempVeb.fieldTypeMapGet fc.field_type = "char" ∧
    (OddTempVeb.create_field s model fc).1 = true ∧
    RCall.createField model fc.name "char" ∈ (OddTempVeb.create_field s model fc).2.2 := by
  have hmap : OddTempVeb.fieldTypeMapGet fc.field_type = "char" := by
    simp only [List.mem_cons, List.not_mem_nil, or_false, not_or] at hunrec
    obtain ⟨n1, n2, n3, n4, n5, n6, n7, n8⟩ := hunrec
    simp [OddTempVeb.fieldTypeMapGet, OddTempVeb.field_type_map, List.lookup,
          beq_eq_false_iff_ne.mpr n1, beq_eq_false_iff_ne.mpr n2,
          beq_eq_false_iff_ne.mpr n3, beq_eq_false_iff_ne.mpr n4,
          beq_eq_false_iff_ne.mpr n5, beq_eq_false_iff_ne.mpr n6,
          beq_eq_false_iff_ne.mpr n7, beq_eq_false_iff_ne.mpr n8]
  obtain ⟨hok, -, hmem⟩ := OddTempVeb.create_field_creates s model fc h1 h2 h3 h4 h5
  rw [hmap] at hmem
  exact ⟨hmap, hok, hmem⟩

/-- C6 witness: a concrete run with the unrecognized tag `weird`. -/
theorem claim_C6_witness :
    ("weird" ∉ ["char", "text", "integer", "float", "date",
                "datetime", "boolean", "selection"]) ∧
    (OddTempVeb.fieldTypeMapGet "weird" = "char" ∧
     (OddTempVeb.create_field { models := [("x.m", 3)] } "x.m"
        { name := "x_a", label := "A", field_type := "weird" }).1 = true ∧
     RCall.createField "x.m" "x_a" "char" ∈
       (OddTempVeb.create_field { models := [("x.m", 3)] } "x.m"
          { name := "x_a", label := "A", field_type := "weird" }).2.2) :=
  ⟨by decide,
   claim_C6_fail_open_type_mapping { models := [("x.m", 3)] } "x.m"
     { name := "x_a", label := "A", field_type := "weird" }
     (by decide) (by decide) (by decide) (by decide) (by decide) (by decide)⟩

/-- C7: when the existence query for a (model, field-name) pair raises,
`check_field_exists` reports `False` (fail-open), and `create_field`
therefore proceeds toward creation instead of skipping: it goes on to
the `ir.model` search that precedes the creation call. -/
theorem claim_C7_fail_open_existence (s : RemoteState) (model : String)
    (fc : FieldConfig) (h : (model, fc.name) ∈ s.failFieldSearch) :
    (OddTempVeb.check_field_exists s model fc.name).1 = false ∧
    RCall.searchModel model ∈ (OddTempVeb.create_field s model fc).2.2 := by
  have hchk : (OddTempVeb.check_field_exists s model fc.name).1 = false := by
    rw [OddTempVeb.check_field_exists_fst, if_pos h]
  refine ⟨hchk, ?_⟩
  simp only [OddTempVeb.create_field, hchk, Bool.false_eq_true, if_false]
  split
  · simp
  · split
    · simp
    · split <;> simp

/-- C7 witness: a concrete faulting existence query on a field that in
fact exists remotely; the check still says "does not exist" and the
field is re-attempted. -/
theorem claim_C7_witness :
    ("x.m", "x_a") ∈ (RemoteState.failFieldSearch
        { fields := [("x.m", "x_a")], failFieldSearch := [("x.m", "x_a")] }) ∧
    ((OddTempVeb.check_field_exists
        { fields := [("x.m", "x_a")], failFieldSearch := [("x.m", "x_a")] }
        "x.m" "x_a").1 = false ∧
     RCall.searchModel "x.m" ∈
       (OddTempVeb.create_field
          { fields := [("x.m", "x_a")], failFieldSearch := [("x.m", "x_a")] }
          "x.m" { name := "x_a" }).2.2) :=
  ⟨by decide,
   claim_C7_fail_open_existence
     { fields := [("x.m", "x_a")], failFieldSearch := [("x.m", "x_a")] }
     "x.m" { name := "x_a" } (by decide)⟩

/-- C8: layout dispatch is keyed off the template code: if the
lower-cased `template_code` contains the substring `temperatura` the
temperature layout is produced, otherwise the hermiticity layout. -/
theorem claim_C8_layout_dispatch (cfg : TemplateConfig) :
    (("temperatura".toList <:+:
        (pyLower (cfg.template_code.getD "")).toList) →
       OdooTemplateTemp.generate_worksheet_xml cfg =
         OdooTemplateTemp.generate_worksheet_xml_temperatura cfg) ∧
    (¬ ("temperatura".toList <:+:
        (pyLower (cfg.template_code.getD "")).toList) →
       OdooTemplateTemp.generate_worksheet_xml cfg =
         OdooTemplateTemp.generate_worksheet_xml_hermiticity cfg) := by
  constructor
  · intro h
    have hb : pyInStr "temperatura" (pyLower (cfg.template_code.getD "")) = true := by
      rw [pyInStr]
      exact (charsContains_iff_substring _ _).mpr h
    simp [OdooTemplateTemp.generate_worksheet_xml, hb]
  · intro h
    have hb : pyInStr "temperatura" (pyLower (cfg.template_code.getD "")) = false := by
      rw [pyInStr]
      exact Bool.eq_false_iff.mpr
        (fun htrue => h ((charsContains_iff_substring _ _).mp htrue))
    simp [OdooTemplateTemp.generate_worksheet_xml, hb]

/-- C8 witness: the dispatch at a temperature code and at a
non-temperature code. -/
theorem claim_C8_witness :
    ("temperatura".toList <:+: (pyLower ((some "Code TEMPERATURA v2").getD "")).toList) ∧
    ¬ ("temperatura".toList <:+: (pyLower ((some "hermeticidad").getD "")).toList) ∧
    OdooTemplateTemp.generate_worksheet_xml
        { template_name := "T", template_code := some "Code TEMPERATURA v2" } =
      OdooTemplateTemp.generate_worksheet_xml_temperatura
        { template_name := "T", template_code := some "Code TEMPERATURA v2" } ∧
    OdooTemplateTemp.generate_worksheet_xml
        { template_name := "T", template_code := some "hermeticidad" } =
      OdooTemplateTemp.generate_worksheet_xml_hermiticity
        { template_name := "T", template_code := some "hermeticidad" } :=
  ⟨(charsContains_iff_substring _ _).mp (by decide),
   (fun h => by
     have hfalse : charsContains "temperatura".toList
         (pyLower ((some "hermeticidad").getD "")).toList = false := by decide
     have htrue := (charsContains_iff_substring "temperatura".toList
       (pyLower ((some "hermeticidad").getD "")).toList).mpr h
     rw [hfalse] at htrue
     cases htrue),
   (claim_C8_layout_dispatch
      { template_name := "T", template_code := some "Code TEMPERATURA v2" }).1
     ((charsContains_iff_substring _ _).mp (by decide)),
   (claim_C8_layout_dispatch
      { template_name := "T", template_code := some "hermeticidad" }).2
     (fun h => by
       have hfalse : charsContains "temperatura".toList
           (pyLower ((some "hermeticidad").getD "")).toList = false := by decide
       have htrue := (charsContains_iff_substring "temperatura".toList
         (pyLower ((some "hermeticidad").getD "")).toList).mpr h
       rw [hfalse] at htrue
       cases htrue)⟩

/-- C9: the hermiticity, temperature and centrifuge layout generators
depend only on the template name, not on the fields list; the
dispatching generator additionally depends only on the template code.
Two configs agreeing on those produce identical XML even with entirely
different fields lists. -/
theorem claim_C9_layout_ignores_fields (cfg1 cfg2 : TemplateConfig)
    (hname : cfg1.template_name = cfg2.template_name) :
    OdooTemplateTemp.generate_worksheet_xml_hermiticity cfg1 =
      OdooTemplateTemp.generate_worksheet_xml_hermiticity cfg2 ∧
    OdooTemplateTemp.generate_worksheet_xml_temperatura cfg1 =
      OdooTemplateTemp.generate_worksheet_xml_temperatura cfg2 ∧
    OdooLong1.generate_worksheet_xml cfg1 = OdooLong1.generate_worksheet_xml cfg2 ∧
    (cfg1.template_code = cfg2.template_code →
      OdooTemplateTemp.generate_worksheet_xml cfg1 =
        OdooTemplateTemp.generate_worksheet_xml cfg2) := by
  refine ⟨?_, ?_, ?_, ?_⟩
  · rw [OdooTemplateTemp.generate_worksheet_xml_hermiticity,
        OdooTemplateTemp.generate_worksheet_xml_hermiticity, hname]
  · rw [OdooTemplateTemp.generate_worksheet_xml_temperatura,
        OdooTemplateTemp.generate_worksheet_xml_temperatura, hname]
  · rw [OdooLong1.generate_worksheet_xml, OdooLong1.generate_worksheet_xml, hname]
  · intro hcode
    simp only [OdooTemplateTemp.generate_worksheet_xml, hcode]
    split
    · rw [OdooTemplateTemp.generate_worksheet_xml_temperatura,
          OdooTemplateTemp.generate_worksheet_xml_temperatura, hname]
    · rw [OdooTemplateTemp.generate_worksheet_xml_hermiticity,
          OdooTemplateTemp.generate_worksheet_xml_hermiticity, hname]

/-- C9 witness: same template name and code, one config with no fields
and one with a field: all four generated XML strings coincide. -/
theorem claim_C9_witness :
    (TemplateConfig.template_name
        { template_name := "T", template_code := some "c", fields := [] } =
     TemplateConfig.template_name
        { template_name := "T", template_code := some "c",
          fields := [{ name := "x_a", label := "A" }] }) ∧
    (OdooTemplateTemp.generate_worksheet_xml_hermiticity
        { template_name := "T", template_code := some "c", fields := [] } =
      OdooTemplateTemp.generate_worksheet_xml_hermiticity
        { template_name := "T", template_code := some "c",
          fields := [{ name := "x_a", label := "A" }] } ∧
     OdooTemplateTemp.generate_worksheet_xml_temperatura
        { template_name := "T", template_code := some "c", fields := [] } =
      OdooTemplateTemp.generate_worksheet_xml_temperatura
        { template_name := "T", template_code := some "c",
          fields := [{ name := "x_a", label := "A" }] } ∧
     OdooLong1.generate_worksheet_xml
        { template_name := "T", template_code := some "c", fields := [] } =
      OdooLong1.generate_worksheet_xml
        { template_name := "T", template_code := some "c",
          fields := [{ name := "x_a", label := "A" }] } ∧
     ((TemplateConfig.template_code
          { template_name := "T", template_code := some "c", fields := [] } =
       TemplateConfig.template_code
          { template_name := "T", template_code := some "c",
            fields := [{ name := "x_a", label := "A" }] }) →
       OdooTemplateTemp.generate_worksheet_xml
          { template_name := "T", template_code := some "c", fields := [] } =
         OdooTemplateTemp.generate_worksheet_xml
          { template_name := "T", template_code := some "c",
            fields := [{ name := "x_a", label := "A" }] })) :=
  ⟨rfl,
   claim_C9_layout_ignores_fields
     { template_name := "T", template_code := some "c", fields := [] }
     { template_name := "T", template_code := some "c",
       fields := [{ name := "x_a", label := "A" }] } rfl⟩

/-- C1: field synchronization is idempotent.  With healthy queries and
a resolvable model: (a) `create_field` on an already-existing field
issues only the existence query — no creation call — and returns
success; (b) re-running the whole field loop after a first run changes
nothing: the second run's trace is exactly the per-field existence
queries (so no field is created twice), every field is skipped as
existing (counted as success), and the failed count and failed-fields
list are zero and empty. -/
theorem claim_C1_idempotent_field_sync (s : RemoteState) (model : String)
    (fs : List FieldConfig)
    (hms : model ∉ s.failModelSearch)
    (hmid : modelIds s model ≠ [])
    (hclean : ∀ fc ∈ fs, (model, fc.name) ∉ s.failFieldSearch ∧
                         (model, fc.name) ∉ s.failFieldCreate) :
    (∀ fc ∈ fs, (model, fc.name) ∈ s.fields →
       OddTempVeb.create_field s model fc =
         (true, s, [RCall.searchField model fc.name])) ∧
    OddTempVeb.processFields model (OddTempVeb.processFields model s fs).2.1 fs =
      ((fs.length, 0, []), (OddTempVeb.processFields model s fs).2.1,
       fs.map (fun fc => RCall.searchField model fc.name)) := by
  constructor
  · intro fc hfc hmem
    exact OddTempVeb.create_field_skip s model fc (hclean fc hfc).1 hmem
  · obtain ⟨-, hfs1, -, -, -, -⟩ := OddTempVeb.processFields_preserves model fs s
    have hall := OddTempVeb.processFields_all_present model fs s hms hmid hclean
    refine OddTempVeb.processFields_skip_all model fs
      (OddTempVeb.processFields model s fs).2.1 ?_
    intro fc hfc
    refine ⟨hall fc hfc, ?_⟩
    rw [hfs1]
    exact (hclean fc hfc).1

/-- C1 witness: model `x.m` resolvable, field `x_b` pre-existing,
field list `[x_a, x_b]`; the second run over the state left by the
first skips both fields with no creation call. -/
theorem claim_C1_witness :
    ("x.m" ∉ RemoteState.failModelSearch
        { models := [("x.m", 3)], fields := [("x.m", "x_b")] } ∧
     modelIds { models := [("x.m", 3)], fields := [("x.m", "x_b")] } "x.m" ≠ [] ∧
     ∀ fc ∈ ([{ name := "x_a" }, { name := "x_b" }] : List FieldConfig),
       ("x.m", fc.name) ∉ RemoteState.failFieldSearch
           { models := [("x.m", 3)], fields := [("x.m", "x_b")] } ∧
       ("x.m", fc.name) ∉ RemoteState.failFieldCreate
           { models := [("x.m", 3)], fields := [("x.m", "x_b")] }) ∧
    OddTempVeb.processFields "x.m"
        (OddTempVeb.processFields "x.m"
          { models := [("x.m", 3)], fields := [("x.m", "x_b")] }
          [{ name := "x_a" }, { name := "x_b" }]).2.1
        [{ name := "x_a" }, { name := "x_b" }] =
      ((2, 0, []),
       (OddTempVeb.processFields "x.m"
          { models := [("x.m", 3)], fields := [("x.m", "x_b")] }
          [{ name := "x_a" }, { name := "x_b" }]).2.1,
       [RCall.searchField "x.m" "x_a", RCall.searchField "x.m" "x_b"]) :=
  ⟨⟨by decide, by decide, by decide⟩,
   (claim_C1_idempotent_field_sync
      { models := [("x.m", 3)], fields := [("x.m", "x_b")] } "x.m"
      [{ name := "x_a" }, { name := "x_b" }]
      (by decide) (by decide) (by decide)).2⟩

/-- C3: partial-failure isolation.  Unconditionally, for every input
list: every field is attempted (its existence query is in the trace,
and `created + failed` covers the whole list), the failed counter
equals exactly the number of `False` outcomes of `create_field` along
the run, and the failed-fields list is exactly the names of those
fields, in order. -/
theorem claim_C3_partial_failure_isolation (s : RemoteState) (model : String)
    (fs : List FieldConfig) :
    (OddTempVeb.processFields model s fs).1.1 +
      (OddTempVeb.processFields model s fs).1.2.1 = fs.length ∧
    (OddTempVeb.processFields model s fs).1.2.1 =
      (OddTempVeb.fieldOutcomes model s fs).count false ∧
    (OddTempVeb.processFields model s fs).1.2.2 =
      ((fs.zip (OddTempVeb.fieldOutcomes model s fs)).filter
        (fun p => !p.2)).map (fun p => p.1.name) ∧
    ∀ fc ∈ fs, RCall.searchField model fc.name ∈
      (OddTempVeb.processFields model s fs).2.2 := by
  obtain ⟨h1, h2, h3⟩ := OddTempVeb.processFields_report model fs s
  exact ⟨h1, h2, h3, OddTempVeb.processFields_trace_all model fs s⟩

/-- C3 witness: two fields, the first one's creation call forced to
fail; both are attempted, `failed = 1` and the failed list is
`[x_a]`. -/
theorem claim_C3_witness :
    (OddTempVeb.processFields "x.m"
       { models := [("x.m", 3)], failFieldCreate := [("x.m", "x_a")] }
       [{ name := "x_a" }, { name := "x_b" }]).1.2.1 = 1 ∧
    (OddTempVeb.processFields "x.m"
       { models := [("x.m", 3)], failFieldCreate := [("x.m", "x_a")] }
       [{ name := "x_a" }, { name := "x_b" }]).1.2.2 = ["x_a"] ∧
    ((OddTempVeb.processFields "x.m"
        { models := [("x.m", 3)], failFieldCreate := [("x.m", "x_a")] }
        [{ name := "x_a" }, { name := "x_b" }]).1.1 +
       (OddTempVeb.processFields "x.m"
          { models := [("x.m", 3)], failFieldCreate := [("x.m", "x_a")] }
          [{ name := "x_a" }, { name := "x_b" }]).1.2.1 = 2 ∧
     (OddTempVeb.processFields "x.m"
        { models := [("x.m", 3)], failFieldCreate := [("x.m", "x_a")] }
        [{ name := "x_a" }, { name := "x_b" }]).1.2.1 =
       (OddTempVeb.fieldOutcomes "x.m"
          { models := [("x.m", 3)], failFieldCreate := [("x.m", "x_a")] }
          [{ name := "x_a" }, { name := "x_b" }]).count false ∧
     (OddTempVeb.processFields "x.m"
        { models := [("x.m", 3)], failFieldCreate := [("x.m", "x_a")] }
        [{ name := "x_a" }, { name := "x_b" }]).1.2.2 =
       ((([{ name := "x_a" }, { name := "x_b" }] : List FieldConfig).zip
           (OddTempVeb.fieldOutcomes "x.m"
             { models := [("x.m", 3)], failFieldCreate := [("x.m", "x_a")] }
             [{ name := "x_a" }, { name := "x_b" }])).filter
         (fun p => !p.2)).map (fun p => p.1.name) ∧
     ∀ fc ∈ ([{ name := "x_a" }, { name := "x_b" }] : List FieldConfig),
       RCall.searchField "x.m" fc.name ∈
         (OddTempVeb.processFields "x.m"
            { models := [("x.m", 3)], failFieldCreate := [("x.m", "x_a")] }
            [{ name := "x_a" }, { name := "x_b" }]).2.2) :=
  ⟨by decide, by decide,
   claim_C3_partial_failure_isolation
     { models := [("x.m", 3)], failFieldCreate := [("x.m", "x_a")] } "x.m"
     [{ name := "x_a" }, { name := "x_b" }]⟩

/-- C2: for every run that reaches the view step (template resolution
produced a truthy id and model name), the result is the full report,
whose `success` flag is true exactly when the view step returned a view
identifier; the flag equals the view step's outcome regardless of the
field counters, and a view-step fault alone forces it to false. -/
theorem claim_C2_success_iff_view_step (s : RemoteState) (tmpl : TemplateConfig)
    (tid : Nat) (wm : String)
    (hfind : (OddTempVeb.find_worksheet_template_by_name s tmpl.template_name).1 =
      (some tid, some wm))
    (hid : tid ≠ 0) (hwm : wm ≠ "") :
    ∃ r, (OddTempVeb.design_template s (.ok tmpl)).1 = .report r ∧
      (r.success = true ↔ r.view_id.isSome = true) ∧
      r.view_id = (OddTempVeb.create_worksheet_view
        (OddTempVeb.processFields wm s tmpl.fields).2.1 wm tmpl).1 ∧
      (s.failViewOp = true → r.success = false) := by
  have hred := OddTempVeb.design_template_report s tmpl tid wm hfind hid hwm
  refine ⟨{ template_name := tmpl.template_name,
            template_id := tid,
            worksheet_model := wm,
            total_fields := tmpl.fields.length,
            created := (OddTempVeb.processFields wm s tmpl.fields).1.1,
            failed := (OddTempVeb.processFields wm s tmpl.fields).1.2.1,
            failed_fields := (OddTempVeb.processFields wm s tmpl.fields).1.2.2,
            view_id := (OddTempVeb.create_worksheet_view
              (OddTempVeb.processFields wm s tmpl.fields).2.1 wm tmpl).1,
            success := (OddTempVeb.create_worksheet_view
              (OddTempVeb.processFields wm s tmpl.fields).2.1 wm tmpl).1.isSome },
          ?_, Iff.rfl, rfl, ?_⟩
  · rw [hred]
  · intro hv
    obtain ⟨-, -, -, -, hvo, -⟩ := OddTempVeb.processFields_preserves wm tmpl.fields s
    have hvo' : (OddTempVeb.processFields wm s tmpl.fields).2.1.failViewOp = true := by
      rw [hvo]
      exact hv
    obtain ⟨hnone, -⟩ := OddTempVeb.create_worksheet_view_fail
      (OddTempVeb.processFields wm s tmpl.fields).2.1 wm tmpl hvo'
    simp only [hnone, Option.isSome_none]

/-- C2 witness: a run whose view-step calls raise: the report's
success flag is false although the field loop ran. -/
theorem claim_C2_witness :
    ((OddTempVeb.find_worksheet_template_by_name
        { templates := [("T", 7)], templateModel := [(7, 3)],
          modelNames := [(3, "x.m")], models := [("x.m", 3)], failViewOp := true }
        (TemplateConfig.template_name
          { template_name := "T", fields := [{ name := "x_a" }] })).1 =
      (some 7, some "x.m") ∧ (7 : Nat) ≠ 0 ∧ "x.m" ≠ "") ∧
    (∃ r, (OddTempVeb.design_template
        { templates := [("T", 7)], templateModel := [(7, 3)],
          modelNames := [(3, "x.m")], models := [("x.m", 3)], failViewOp := true }
        (.ok { template_name := "T", fields := [{ name := "x_a" }] })).1 = .report r ∧
      (r.success = true ↔ r.view_id.isSome = true) ∧
      r.view_id = (OddTempVeb.create_worksheet_view
        (OddTempVeb.processFields "x.m"
          { templates := [("T", 7)], templateModel := [(7, 3)],
            modelNames := [(3, "x.m")], models := [("x.m", 3)], failViewOp := true }
          (TemplateConfig.fields
            { template_name := "T", fields := [{ name := "x_a" }] })).2.1 "x.m"
        { template_name := "T", fields := [{ name := "x_a" }] }).1 ∧
      (RemoteState.failViewOp
          { templates := [("T", 7)], templateModel := [(7, 3)],
            modelNames := [(3, "x.m")], models := [("x.m", 3)], failViewOp := true } =
        true → r.success = false)) :=
  ⟨⟨by decide, by decide, by decide⟩,
   claim_C2_success_iff_view_step
     { templates := [("T", 7)], templateModel := [(7, 3)],
       modelNames := [(3, "x.m")], models := [("x.m", 3)], failViewOp := true }
     { template_name := "T", fields := [{ name := "x_a" }] } 7 "x.m"
     (by decide) (by decide) (by decide)⟩

/-- C4: when the template-name search yields no match, or a linkage hop
(the template's model link or the model record) is missing, resolution
returns (None, None), `design_template` returns the failure dict with
`success` false, the remote state is untouched, and the trace contains
no field-creation call and no view call. -/
theorem claim_C4_resolution_short_circuits (s : RemoteState) (tmpl : TemplateConfig)
    (h : templateIds s tmpl.template_name = [] ∨
         ∃ tid rest, templateIds s tmpl.template_name = tid :: rest ∧
           (s.templateModel.lookup tid = none ∨
            ∃ mid, s.templateModel.lookup tid = some mid ∧
                   s.modelNames.lookup mid = none)) :
    (OddTempVeb.find_worksheet_template_by_name s tmpl.template_name).1 =
      (none, none) ∧
    (OddTempVeb.design_template s (.ok tmpl)).1 = .notFound ∧
    (OddTempVeb.design_template s (.ok tmpl)).1.success = false ∧
    (OddTempVeb.design_template s (.ok tmpl)).2.1 = s ∧
    ∀ c ∈ (OddTempVeb.design_template s (.ok tmpl)).2.2,
      c.isCreateFieldCall = false ∧ c.isViewCall = false := by
  obtain ⟨hfind, htrace⟩ := OddTempVeb.find_not_found s tmpl.template_name h
  have hred := OddTempVeb.design_template_notFound s tmpl hfind
  refine ⟨hfind, by rw [hred], by rw [hred]; rfl, by rw [hred], ?_⟩
  intro c hc
  rw [hred] at hc
  exact ⟨(htrace c hc).2.1, (htrace c hc).2.2⟩

/-- C4 witness: an empty remote (no template named `T`): resolution
fails, the run reports failure, and the trace holds no creation or view
call. -/
theorem claim_C4_witness :
    templateIds ({} : RemoteState)
      (TemplateConfig.template_name { template_name := "T" }) = [] ∧
    ((OddTempVeb.find_worksheet_template_by_name ({} : RemoteState)
        (TemplateConfig.template_name { template_name := "T" })).1 =
      (none, none) ∧
     (OddTempVeb.design_template ({} : RemoteState)
        (.ok { template_name := "T" })).1 = .notFound ∧
     (OddTempVeb.design_template ({} : RemoteState)
        (.ok { template_name := "T" })).1.success = false ∧
     (OddTempVeb.design_template ({} : RemoteState)
        (.ok { template_name := "T" })).2.1 = ({} : RemoteState) ∧
     ∀ c ∈ (OddTempVeb.design_template ({} : RemoteState)
        (.ok { template_name := "T" })).2.2,
       c.isCreateFieldCall = false ∧ c.isViewCall = false) :=
  ⟨by decide,
   claim_C4_resolution_short_circuits ({} : RemoteState) { template_name := "T" }
     (Or.inl (by decide))⟩

/-- C5 witness: the amended naming law applied at the colliding pair
and at a genuinely distinct pair. -/
theorem claim_C5_witness :
    OddTempVeb.view_name_for "a.b" = OddTempVeb.view_name_for "a_b" ∧
    OddTempVeb.view_name_for "x_one" ≠ OddTempVeb.view_name_for "x_two" :=
  ⟨(claim_C5_layout_naming "a.b" "a_b").mpr (by decide),
   fun h => by
     have hne : OddTempVeb.dotToUnderscore "x_one" ≠ OddTempVeb.dotToUnderscore "x_two" := by
       decide
     exact hne ((claim_C5_layout_naming "x_one" "x_two").mp h)⟩

/-- C10 witness: a concrete failed JSON load issues no remote call and
reports failure with the error message. -/
theorem claim_C10_witness :
    OddTempVeb.design_template ({} : RemoteState)
        (.error "Expecting value: line 1 column 1 (char 0)") =
      (.loadError "Expecting value: line 1 column 1 (char 0)",
       ({} : RemoteState), []) ∧
    (OddTempVeb.design_template ({} : RemoteState)
        (.error "Expecting value: line 1 column 1 (char 0)")).1.success = false :=
  claim_C10_load_failure_no_calls ({} : RemoteState)
    "Expecting value: line 1 column 1 (char 0)"
